import Mathlib

/-!
Verification of the fare/surge/market simulation engine of the Car-pred
repository (src/Backend/main.py and src/app.py).  Python numbers are
modelled by rationals, `round(x, 2)` by `round2`, integer random draws
by an explicit tape of naturals, and the market dictionary by an
association list over an inductive key type, looked up with `Option`
results so that a Python `KeyError` appears as `none`.
-/

namespace CarPred

/-- Python `round(x, 2)`: round to two decimal places. -/
def round2 (q : ℚ) : ℚ := ((round (q * 100) : ℤ) : ℚ) / 100

/-- Python `random.randint(lo, hi)` reading cell `i` of a random tape:
returns a value in `[lo, hi]` together with the next tape index. -/
def randint (lo hi : ℕ) (tape : ℕ → ℕ) (i : ℕ) : ℕ × ℕ :=
  (lo + tape i % (hi + 1 - lo), i + 1)

/-- Python `random.uniform(lo, hi)` reading one tape cell, modelled as a
draw from 101 equally spaced points of `[lo, hi]`. -/
def uniform (lo hi : ℚ) (t : ℕ) : ℚ :=
  lo + (hi - lo) * ((t % 101 : ℕ) : ℚ) / 100

/-- One provider's three fares (the `Bike`/`Auto`/`Car` dict). -/
structure FareTable where
  bike : ℚ
  auto : ℚ
  car : ℚ

namespace Backend

/-- `surge_multiplier` from src/Backend/main.py lines 48-59. -/
def surge_multiplier (demand supply : ℕ) : ℚ :=
  if supply = 0 then 2
  else
    let ratio : ℚ := (demand : ℚ) / (supply : ℚ)
    if ratio < 1 then 1
    else if ratio < 3/2 then 6/5
    else if ratio < 2 then 3/2
    else 2

/-- `time_increment` from src/Backend/main.py lines 71-84, with the ambient
clock hour passed explicitly. -/
def time_increment (hour : ℕ) : ℚ :=
  if hour < 6 then 100
  else if hour < 10 then 20
  else if hour < 15 then 30
  else if hour < 21 then 0
  else if hour ≤ 23 then 30
  else 0

/-- `calculate_fare` from src/Backend/main.py lines 62-66. -/
def calculate_fare (distance_meters base per_km surge : ℚ) (hour : ℕ) : ℚ :=
  let distance_km := distance_meters / 1000
  let base_price := base + time_increment hour
  let fare := base_price + distance_km * per_km
  round2 (fare * surge)

/-- The fare before the final 2-decimal rounding: the value
`fare * surge` that src/Backend/main.py line 66 passes to `round`. -/
def fare_unrounded (distance_meters base per_km surge : ℚ) (hour : ℕ) : ℚ :=
  (base + time_increment hour + distance_meters / 1000 * per_km) * surge

/-- The `rapido` pricing dict of src/Backend/main.py lines 191-195. -/
def rapido (distance surge : ℚ) (hour : ℕ) : FareTable :=
  { bike := calculate_fare distance 10 4 surge hour
    auto := calculate_fare distance 20 6 surge hour
    car := calculate_fare distance 30 8 surge hour }

/-- The `ola` pricing dict of src/Backend/main.py lines 197-201. -/
def ola (distance surge : ℚ) (hour : ℕ) : FareTable :=
  { bike := calculate_fare distance 15 5 surge hour
    auto := calculate_fare distance 30 8 surge hour
    car := calculate_fare distance 45 11 surge hour }

/-- The `uber` pricing dict of src/Backend/main.py lines 203-207. -/
def uber (distance surge : ℚ) (hour : ℕ) : FareTable :=
  { bike := calculate_fare distance 20 6 surge hour
    auto := calculate_fare distance 35 9 surge hour
    car := calculate_fare distance 55 13 surge hour }

/-- The availability labels returned by `driver_market_conditions`. -/
inductive AvailabilityLevel where
  | veryLow
  | lowMedium
  | medium
  | high
  | mediumHigh
  | unknown
  deriving DecidableEq

/-- The dictionary keys appearing in src/Backend/main.py: the four keys
`driver_market_conditions` actually returns, plus the three keys
`calculate_ride` tries to read from that dict. -/
inductive MKey where
  | availability_level
  | vehicle_availability_percent
  | acceptance_probability_percent
  | eta_minutes
  | probability_range
  | eta_range
  | visible_vehicles
  deriving DecidableEq, BEq

/-- Values stored in the market dictionary. -/
inductive MVal where
  | level (l : AvailabilityLevel)
  | num (q : ℚ)
  | int (n : ℕ)
  | range (lo hi : ℕ)
  deriving DecidableEq

/-- `driver_market_conditions` from src/Backend/main.py lines 87-135: one
dict of four entries per time band, consuming three tape cells. -/
def driver_market_conditions (hour : ℕ) (tape : ℕ → ℕ) (i : ℕ) :
    List (MKey × MVal) × ℕ :=
  if hour < 6 then
    ([(MKey.availability_level, MVal.level AvailabilityLevel.veryLow),
      (MKey.vehicle_availability_percent, MVal.num (round2 (uniform 10 20 (tape i)))),
      (MKey.acceptance_probability_percent, MVal.num (round2 (uniform 20 50 (tape (i+1))))),
      (MKey.eta_minutes, MVal.int (randint 8 15 tape (i+2)).1)], i + 3)
  else if hour < 10 then
    ([(MKey.availability_level, MVal.level AvailabilityLevel.lowMedium),
      (MKey.vehicle_availability_percent, MVal.num (round2 (uniform 40 50 (tape i)))),
      (MKey.acceptance_probability_percent, MVal.num (round2 (uniform 40 50 (tape (i+1))))),
      (MKey.eta_minutes, MVal.int (randint 5 10 tape (i+2)).1)], i + 3)
  else if hour < 15 then
    ([(MKey.availability_level, MVal.level AvailabilityLevel.medium),
      (MKey.vehicle_availability_percent, MVal.num (round2 (uniform 60 75 (tape i)))),
      (MKey.acceptance_probability_percent, MVal.num (round2 (uniform 60 75 (tape (i+1))))),
      (MKey.eta_minutes, MVal.int (randint 4 8 tape (i+2)).1)], i + 3)
  else if hour < 21 then
    ([(MKey.availability_level, MVal.level AvailabilityLevel.high),
      (MKey.vehicle_availability_percent, MVal.num (round2 (uniform 80 100 (tape i)))),
      (MKey.acceptance_probability_percent, MVal.num (round2 (uniform 80 100 (tape (i+1))))),
      (MKey.eta_minutes, MVal.int (randint 2 6 tape (i+2)).1)], i + 3)
  else if hour ≤ 23 then
    ([(MKey.availability_level, MVal.level AvailabilityLevel.mediumHigh),
      (MKey.vehicle_availability_percent, MVal.num (round2 (uniform 50 80 (tape i)))),
      (MKey.acceptance_probability_percent, MVal.num (round2 (uniform 50 80 (tape (i+1))))),
      (MKey.eta_minutes, MVal.int (randint 4 9 tape (i+2)).1)], i + 3)
  else
    ([(MKey.availability_level, MVal.level AvailabilityLevel.unknown),
      (MKey.vehicle_availability_percent, MVal.num (round2 (uniform 40 60 (tape i)))),
      (MKey.acceptance_probability_percent, MVal.num (round2 (uniform 40 60 (tape (i+1))))),
      (MKey.eta_minutes, MVal.int (randint 5 10 tape (i+2)).1)], i + 3)

/-- The `metrics` block of the response (src/Backend/main.py lines 213-220). -/
structure Metrics where
  distance_km : ℚ
  demand : ℕ
  supply : ℕ
  surge : ℚ
  time_inc_field : ℚ

/-- The `driver_simulation` block of the response
(src/Backend/main.py lines 221-226). -/
structure DriverSimulation where
  availability_level : AvailabilityLevel
  visible_nearby_captains : MVal
  acceptance_probability_percent : ℕ
  estimated_arrival_time_minutes : ℕ

/-- The response of `calculate_ride` (src/Backend/main.py lines 212-235),
minus the route polyline and coordinates, which come from the external
routing collaborator. -/
structure RideResponse where
  metrics : Metrics
  driver_simulation : DriverSimulation
  rapido : FareTable
  ola : FareTable
  uber : FareTable

/-- The simulation core of `calculate_ride` (src/Backend/main.py lines
166-235): everything after geocoding and routing have produced a distance.
Dictionary reads return `Option`; a missing key (Python `KeyError`) or a
value that is not the expected pair of range bounds (Python `TypeError`)
yields `none`. -/
def calculate_ride_sim (distance : ℚ) (hour : ℕ) (tape : ℕ → ℕ) :
    Option RideResponse :=
  let (demand, i1) := randint 50 120 tape 0
  let (supply, i2) := randint 30 100 tape i1
  let surge := surge_multiplier demand supply
  let (market, i3) := driver_market_conditions hour tape i2
  match market.lookup MKey.probability_range with
  | none => none
  | some (MVal.range plo phi) =>
    let (acceptance_probability, i4) := randint plo phi tape i3
    match market.lookup MKey.eta_range with
    | none => none
    | some (MVal.range elo ehi) =>
      let (estimated_eta, _i5) := randint elo ehi tape i4
      match market.lookup MKey.availability_level,
            market.lookup MKey.visible_vehicles with
      | some (MVal.level lvl), some vis =>
        some
          { metrics :=
              { distance_km := round2 (distance / 1000)
                demand := demand
                supply := supply
                surge := surge
                time_inc_field := time_increment hour }
            driver_simulation :=
              { availability_level := lvl
                visible_nearby_captains := vis
                acceptance_probability_percent := acceptance_probability
                estimated_arrival_time_minutes := estimated_eta }
            rapido := rapido distance surge hour
            ola := ola distance surge hour
            uber := uber distance surge hour }
      | _, _ => none
    | some _ => none
  | some _ => none

/-- The five time bands of the spec's TimeOfDayPolicy, matching the branch
structure shared by `time_increment` and `driver_market_conditions`. -/
inductive TimeBand where
  | lateNight
  | morningPeak
  | midDay
  | eveningPeak
  | night
  deriving DecidableEq, Fintype

/-- The hour range guarding each band, as written in the source branches. -/
def in_band (b : TimeBand) (h : ℕ) : Prop :=
  match b with
  | TimeBand.lateNight => h < 6
  | TimeBand.morningPeak => 6 ≤ h ∧ h < 10
  | TimeBand.midDay => 10 ≤ h ∧ h < 15
  | TimeBand.eveningPeak => 15 ≤ h ∧ h < 21
  | TimeBand.night => 21 ≤ h ∧ h ≤ 23

instance (b : TimeBand) (h : ℕ) : Decidable (in_band b h) := by
  cases b <;> simp only [in_band] <;> infer_instance

/-- The flat fare increment each band returns in `time_increment`. -/
def increment_of (b : TimeBand) : ℚ :=
  match b with
  | TimeBand.lateNight => 100
  | TimeBand.morningPeak => 20
  | TimeBand.midDay => 30
  | TimeBand.eveningPeak => 0
  | TimeBand.night => 30

end Backend

namespace App

/-- `surge_multiplier` from src/app.py lines 45-58 (identical to the
backend version). -/
def surge_multiplier (demand supply : ℕ) : ℚ :=
  if supply = 0 then 2
  else
    let ratio : ℚ := (demand : ℚ) / (supply : ℚ)
    if ratio < 1 then 1
    else if ratio < 3/2 then 6/5
    else if ratio < 2 then 3/2
    else 2

/-- `calculate_fare` from src/app.py lines 64-67 (no time increment). -/
def calculate_fare (distance_meters base per_km surge : ℚ) : ℚ :=
  let distance_km := distance_meters / 1000
  let fare := base + distance_km * per_km
  round2 (fare * surge)

/-- The `rapido` pricing dict of src/app.py lines 112-116. -/
def rapido (distance surge : ℚ) : FareTable :=
  { bike := calculate_fare distance 10 4 surge
    auto := calculate_fare distance 20 6 surge
    car := calculate_fare distance 30 8 surge }

/-- The `ola` pricing dict of src/app.py lines 119-123. -/
def ola (distance surge : ℚ) : FareTable :=
  { bike := calculate_fare distance 15 5 surge
    auto := calculate_fare distance 30 8 surge
    car := calculate_fare distance 45 11 surge }

/-- The `uber` pricing dict of src/app.py lines 126-130. -/
def uber (distance surge : ℚ) : FareTable :=
  { bike := calculate_fare distance 20 6 surge
    auto := calculate_fare distance 35 9 surge
    car := calculate_fare distance 55 13 surge }

/-- The `ride_data` record stored by src/app.py lines 132-142, minus the
graph and route, which come from the external routing collaborator. -/
structure RideData where
  distance : ℚ
  demand : ℕ
  supply : ℕ
  surge : ℚ
  rapido : FareTable
  ola : FareTable
  uber : FareTable

/-- The simulation block of src/app.py lines 103-142: draw demand and
supply once, derive the surge, then price all nine (provider, vehicle)
pairs from that shared surge. -/
def compare_fares (distance : ℚ) (tape : ℕ → ℕ) : RideData :=
  let (demand, i1) := randint 50 120 tape 0
  let (supply, _i2) := randint 30 100 tape i1
  let surge := surge_multiplier demand supply
  { distance := distance
    demand := demand
    supply := supply
    surge := surge
    rapido := rapido distance surge
    ola := ola distance surge
    uber := uber distance surge }

end App

namespace MarketSimulator

/-- Vehicle types of the catalog. -/
inductive Vehicle where
  | bike
  | auto
  | car
  deriving DecidableEq

/-- Provider tiers of the catalog (low-cost / mid / premium). -/
inductive Provider where
  | lowCost
  | mid
  | premium
  deriving DecidableEq

/-- Modelled from the spec: the per-vehicle acceptance-probability deltas
of `MarketSimulator.adjust` (§4.3), whose source revision is not under
src/ — Bike: none; Auto: −10; Car: +20. -/
def vehicle_prob_delta : Vehicle → ℤ
  | Vehicle.bike => 0
  | Vehicle.auto => -10
  | Vehicle.car => 20

/-- Modelled from the spec: the per-vehicle ETA deltas of
`MarketSimulator.adjust` (§4.3) — Bike: none; Auto: +2; Car: −2. -/
def vehicle_eta_delta : Vehicle → ℤ
  | Vehicle.bike => 0
  | Vehicle.auto => 2
  | Vehicle.car => -2

/-- Modelled from the spec: the per-provider acceptance-probability deltas
of `MarketSimulator.adjust` (§4.3) — low-cost +15, premium +5, mid −10. -/
def provider_prob_delta : Provider → ℤ
  | Provider.lowCost => 15
  | Provider.mid => -10
  | Provider.premium => 5

/-- Modelled from the spec: the per-provider ETA deltas of
`MarketSimulator.adjust` (§4.3) — low-cost −3, premium −1, mid +3. -/
def provider_eta_delta : Provider → ℤ
  | Provider.lowCost => -3
  | Provider.mid => 3
  | Provider.premium => -1

/-- Modelled from the spec: `MarketSimulator.adjust(base, vehicleType,
provider) -> (probability, eta)` (§4.3), whose source revision is not
under src/: apply the per-vehicle then per-provider additive deltas, clamp
the probability into [10, 99] and the ETA to a minimum of 2 minutes. -/
def adjust (base_prob base_eta : ℤ) (v : Vehicle) (p : Provider) : ℤ × ℤ :=
  let prob := base_prob + vehicle_prob_delta v + provider_prob_delta p
  let eta := base_eta + vehicle_eta_delta v + provider_eta_delta p
  (max 10 (min 99 prob), max 2 eta)

end MarketSimulator

lemma calculate_fare_eq_round2 (d base per_km surge : ℚ) (hour : ℕ) :
    Backend.calculate_fare d base per_km surge hour =
      round2 (Backend.fare_unrounded d base per_km surge hour) := rfl

/-- C3 counterexample: `surge_multiplier(60, 60)` does not return 1.0 in
either source file; the ratio 1.0 lands in the `< 1.5` branch, which
returns 1.2. -/
theorem surge_at_ratio_one_ne_one :
    Backend.surge_multiplier 60 60 ≠ 1 ∧ App.surge_multiplier 60 60 ≠ 1 := by
  constructor <;>
    · simp only [Backend.surge_multiplier, App.surge_multiplier]
      norm_num

/-- C3 amended: `surge_multiplier(60, 60)` returns 1.2 in both source
files: ratio 1 falls outside the `< 1` branch and lands in the `< 1.5`
branch, which returns 1.2 (not 1.0). -/
theorem surge_at_ratio_one_eq_six_fifths :
    Backend.surge_multiplier 60 60 = 6/5 ∧ App.surge_multiplier 60 60 = 6/5 := by
  constructor <;>
    · simp only [Backend.surge_multiplier, App.surge_multiplier]
      norm_num

/-- C5: for every demand, `surge_multiplier(demand, 0)` returns 2.0 in both
source files — supply 0 short-circuits before any division. -/
theorem surge_zero_supply :
    ∀ demand : ℕ,
      Backend.surge_multiplier demand 0 = 2 ∧ App.surge_multiplier demand 0 = 2 := by
  intro demand
  constructor <;> rfl

/-- C2: the backend fare equals
`(base + timeIncrement + perKm * distance/1000) * surge` rounded to two
decimals — the time increment joins the base fare before the per-km term
and before surge — and the concrete scenario distance 5000 m, base 10,
perKm 4, surge 1.2, timeIncrement 20 (an hour in 6..9) prices at 60.00. -/
theorem calculate_fare_formula :
    (∀ (d base per_km surge : ℚ) (hour : ℕ), 0 ≤ d →
        Backend.calculate_fare d base per_km surge hour =
          round2 ((base + Backend.time_increment hour + per_km * (d / 1000)) * surge)) ∧
      Backend.calculate_fare 5000 10 4 (6/5) 8 = 60 := by
  constructor
  · intro d base per_km surge hour _
    rw [calculate_fare_eq_round2]
    unfold Backend.fare_unrounded
    congr 1
    ring
  · unfold Backend.calculate_fare Backend.time_increment round2
    norm_num [round_eq]

/-- Witness for `calculate_fare_formula` at distance 5000. -/
theorem calculate_fare_formula_witness :
    Backend.calculate_fare 5000 10 4 (6/5) 8 =
      round2 ((10 + Backend.time_increment 8 + 4 * (5000 / 1000)) * (6/5)) :=
  calculate_fare_formula.1 5000 10 4 (6/5) 8 (by norm_num)

/-- C1: the simulation core of `calculate_ride` never completes: for every
distance, hour and random tape it reads the key `probability_range` from
the market dict, which `driver_market_conditions` never populates, so every
run raises a `KeyError` (modelled as `none`) instead of returning quotes. -/
theorem calculate_ride_sim_keyerror :
    ∀ (distance : ℚ) (hour : ℕ) (tape : ℕ → ℕ),
      Backend.calculate_ride_sim distance hour tape = none := by
  intro d h tape
  unfold Backend.calculate_ride_sim Backend.driver_market_conditions
  split_ifs <;> rfl

/-- C4: for every integer base probability and ETA, every vehicle type and
every provider, the adjusted probability lies in [10, 99] and the adjusted
ETA is at least 2 minutes. -/
theorem adjust_clamped :
    ∀ (base_prob base_eta : ℤ)
      (v : MarketSimulator.Vehicle) (p : MarketSimulator.Provider),
      10 ≤ (MarketSimulator.adjust base_prob base_eta v p).1 ∧
      (MarketSimulator.adjust base_prob base_eta v p).1 ≤ 99 ∧
      2 ≤ (MarketSimulator.adjust base_prob base_eta v p).2 := by
  intro bp be v p
  unfold MarketSimulator.adjust
  dsimp only
  exact ⟨le_max_left _ _, max_le (by norm_num) (min_le_left _ _), le_max_left _ _⟩

/-- C8: in one request, demand comes from the first tape cell mapped into
[50, 120] and supply from the second mapped into [30, 100] — one draw
each, made before the per-(provider, vehicle) pricing — and all nine fares
of the stored result are priced with the single surge derived from that
shared (demand, supply) pair. -/
theorem compare_fares_shared_draws :
    ∀ (distance : ℚ) (tape : ℕ → ℕ),
      (App.compare_fares distance tape).demand = 50 + tape 0 % 71 ∧
      (App.compare_fares distance tape).supply = 30 + tape 1 % 71 ∧
      (50 ≤ (App.compare_fares distance tape).demand ∧
        (App.compare_fares distance tape).demand ≤ 120) ∧
      (30 ≤ (App.compare_fares distance tape).supply ∧
        (App.compare_fares distance tape).supply ≤ 100) ∧
      (App.compare_fares distance tape).surge =
        App.surge_multiplier (App.compare_fares distance tape).demand
          (App.compare_fares distance tape).supply ∧
      ((App.compare_fares distance tape).rapido.bike =
          App.calculate_fare distance 10 4 (App.compare_fares distance tape).surge ∧
        (App.compare_fares distance tape).rapido.auto =
          App.calculate_fare distance 20 6 (App.compare_fares distance tape).surge ∧
        (App.compare_fares distance tape).rapido.car =
          App.calculate_fare distance 30 8 (App.compare_fares distance tape).surge) ∧
      ((App.compare_fares distance tape).ola.bike =
          App.calculate_fare distance 15 5 (App.compare_fares distance tape).surge ∧
        (App.compare_fares distance tape).ola.auto =
          App.calculate_fare distance 30 8 (App.compare_fares distance tape).surge ∧
        (App.compare_fares distance tape).ola.car =
          App.calculate_fare distance 45 11 (App.compare_fares distance tape).surge) ∧
      ((App.compare_fares distance tape).uber.bike =
          App.calculate_fare distance 20 6 (App.compare_fares distance tape).surge ∧
        (App.compare_fares distance tape).uber.auto =
          App.calculate_fare distance 35 9 (App.compare_fares distance tape).surge ∧
        (App.compare_fares distance tape).uber.car =
          App.calculate_fare distance 55 13 (App.compare_fares distance tape).surge) := by
  intro d tape
  have hd : (App.compare_fares d tape).demand = 50 + tape 0 % 71 := rfl
  have hs : (App.compare_fares d tape).supply = 30 + tape 1 % 71 := rfl
  refine ⟨hd, hs, ⟨?_, ?_⟩, ⟨?_, ?_⟩, rfl, ⟨rfl, rfl, rfl⟩, ⟨rfl, rfl, rfl⟩,
    ⟨rfl, rfl, rfl⟩⟩
  · rw [hd]; omega
  · rw [hd]; omega
  · rw [hs]; omega
  · rw [hs]; omega

lemma surge_multiplier_pos_supply (d s : ℕ) (hs : s ≠ 0) :
    Backend.surge_multiplier d s =
      if (d : ℚ) / s < 1 then 1
      else if (d : ℚ) / s < 3/2 then 6/5
      else if (d : ℚ) / s < 2 then 3/2
      else 2 := by
  unfold Backend.surge_multiplier
  rw [if_neg hs]

/-- C6: `surge_multiplier` is monotone non-decreasing in the demand/supply
ratio, takes values only in {1.0, 1.2, 1.5, 2.0}, and at ratio exactly 2
(demand 100, supply 50) returns 2.0 via the else branch. -/
theorem surge_monotone_and_values :
    (∀ d1 s1 d2 s2 : ℕ, 0 < s1 → 0 < s2 →
        (d1 : ℚ) / s1 ≤ (d2 : ℚ) / s2 →
        Backend.surge_multiplier d1 s1 ≤ Backend.surge_multiplier d2 s2) ∧
      (∀ d s : ℕ,
        Backend.surge_multiplier d s = 1 ∨ Backend.surge_multiplier d s = 6/5 ∨
          Backend.surge_multiplier d s = 3/2 ∨ Backend.surge_multiplier d s = 2) ∧
      Backend.surge_multiplier 100 50 = 2 := by
  refine ⟨?_, ?_, ?_⟩
  · intro d1 s1 d2 s2 h1 h2 hr
    rw [surge_multiplier_pos_supply d1 s1 (by omega),
        surge_multiplier_pos_supply d2 s2 (by omega)]
    split_ifs <;> linarith
  · intro d s
    rcases eq_or_ne s 0 with h | h
    · subst h
      right; right; right; rfl
    · rw [surge_multiplier_pos_supply d s h]
      split_ifs <;> norm_num
  · rw [surge_multiplier_pos_supply 100 50 (by norm_num)]
    norm_num

/-- Witness for `surge_monotone_and_values`: ratio 60/50 ≤ 100/50. -/
theorem surge_monotone_and_values_witness :
    Backend.surge_multiplier 60 50 ≤ Backend.surge_multiplier 100 50 :=
  surge_monotone_and_values.1 60 50 100 50 (by norm_num) (by norm_num) (by norm_num)

/-- C7: every hour in 0..23 lies in exactly one of the five time bands,
and on that band `time_increment` returns the band's flat increment:
LateNight 100, MorningPeak 20, MidDay 30, EveningPeak 0, Night 30. -/
theorem time_bands_partition :
    ∀ hour : ℕ, hour < 24 →
      (∃ b : Backend.TimeBand, Backend.in_band b hour) ∧
      (∀ b c : Backend.TimeBand,
        Backend.in_band b hour → Backend.in_band c hour → b = c) ∧
      (∀ b : Backend.TimeBand, Backend.in_band b hour →
        Backend.time_increment hour = Backend.increment_of b) := by
  intro hour h24
  interval_cases hour <;> exact ⟨by decide, by decide, by decide⟩

/-- Witness for `time_bands_partition` at hour 5 (late night). -/
theorem time_bands_partition_witness :
    (∃ b : Backend.TimeBand, Backend.in_band b 5) ∧
      (∀ b c : Backend.TimeBand,
        Backend.in_band b 5 → Backend.in_band c 5 → b = c) ∧
      (∀ b : Backend.TimeBand, Backend.in_band b 5 →
        Backend.time_increment 5 = Backend.increment_of b) :=
  time_bands_partition 5 (by norm_num)

/-- C9 counterexample: at distance 1 m doubled to 2 m, base 10, perKm 3,
surge 1, hour 15 (increment 0), the returned rounded prices are 10.00 and
10.01, whose difference 0.01 is not `perKm * d/1000 * surge = 0.003`. -/
theorem fare_linearity_rounded_cex :
    ¬ (Backend.calculate_fare (2 * 1) 10 3 1 15 -
          Backend.calculate_fare 1 10 3 1 15 = 3 * (1 / 1000) * 1) := by
  unfold Backend.calculate_fare Backend.time_increment round2
  norm_num [round_eq]

/-- C9 amended: the returned price is the 2-decimal rounding of the raw
fare, and that raw fare — before the rounding — is linear in distance:
raw(2d) − raw(d) = perKm × d/1000 × surge. -/
theorem fare_linearity_unrounded :
    ∀ (d base per_km surge : ℚ) (hour : ℕ), 0 ≤ d →
      Backend.calculate_fare d base per_km surge hour =
          round2 (Backend.fare_unrounded d base per_km surge hour) ∧
        Backend.fare_unrounded (2 * d) base per_km surge hour -
            Backend.fare_unrounded d base per_km surge hour =
          per_km * (d / 1000) * surge := by
  intro d base per_km surge hour _
  exact ⟨rfl, by unfold Backend.fare_unrounded; ring⟩

/-- Witness for `fare_linearity_unrounded` at distance 1. -/
theorem fare_linearity_unrounded_witness :
    Backend.fare_unrounded (2 * 1) 10 3 1 15 - Backend.fare_unrounded 1 10 3 1 15 =
      3 * (1 / 1000) * 1 :=
  (fare_linearity_unrounded 1 10 3 1 15 (by norm_num)).2

lemma round2_strict_mono {a b : ℚ} (h : a + 1/100 ≤ b) : round2 a < round2 b := by
  unfold round2
  have hf : round (a * 100) + 1 ≤ round (b * 100) := by
    rw [round_eq, round_eq]
    calc ⌊a * 100 + 1/2⌋ + 1 = ⌊a * 100 + 1/2 + ((1 : ℤ) : ℚ)⌋ :=
          (Int.floor_add_int _ _).symm
      _ ≤ ⌊b * 100 + 1/2⌋ := Int.floor_mono (by push_cast; linarith)
  have hq : ((round (a * 100) : ℤ) : ℚ) < ((round (b * 100) : ℤ) : ℚ) := by
    exact_mod_cast Int.lt_iff_add_one_le.mpr hf
  exact (div_lt_div_iff_of_pos_right (by norm_num)).mpr hq

lemma calculate_fare_lt (d s b1 p1 b2 p2 : ℚ) (hour : ℕ)
    (hd : 0 ≤ d) (hs : 1 ≤ s) (hb : b1 + 5 ≤ b2) (hp : p1 ≤ p2) :
    Backend.calculate_fare d b1 p1 s hour < Backend.calculate_fare d b2 p2 s hour := by
  rw [calculate_fare_eq_round2, calculate_fare_eq_round2]
  apply round2_strict_mono
  unfold Backend.fare_unrounded
  have hpd : d / 1000 * p1 ≤ d / 1000 * p2 :=
    mul_le_mul_of_nonneg_left hp (by positivity)
  have hBA : (5 : ℚ) ≤
      (b2 + Backend.time_increment hour + d / 1000 * p2) -
        (b1 + Backend.time_increment hour + d / 1000 * p1) := by linarith
  have h5s : 5 * s ≤
      ((b2 + Backend.time_increment hour + d / 1000 * p2) -
        (b1 + Backend.time_increment hour + d / 1000 * p1)) * s :=
    mul_le_mul_of_nonneg_right hBA (by linarith)
  nlinarith [h5s, hs]

/-- C10: for every non-negative distance, every surge value in
{1.0, 1.2, 1.5, 2.0} and every hour in 0..23, the three providers' fares
are strictly ordered Rapido < Ola < Uber for each of Bike, Auto, Car, and
the ordering survives the 2-decimal rounding. -/
theorem provider_order_strict :
    ∀ (d s : ℚ) (hour : ℕ), 0 ≤ d →
      (s = 1 ∨ s = 6/5 ∨ s = 3/2 ∨ s = 2) → hour < 24 →
      ((Backend.rapido d s hour).bike < (Backend.ola d s hour).bike ∧
          (Backend.ola d s hour).bike < (Backend.uber d s hour).bike) ∧
        ((Backend.rapido d s hour).auto < (Backend.ola d s hour).auto ∧
          (Backend.ola d s hour).auto < (Backend.uber d s hour).auto) ∧
        ((Backend.rapido d s hour).car < (Backend.ola d s hour).car ∧
          (Backend.ola d s hour).car < (Backend.uber d s hour).car) := by
  intro d s hour hd hs _
  have h1 : (1 : ℚ) ≤ s := by rcases hs with h | h | h | h <;> rw [h] <;> norm_num
  simp only [Backend.rapido, Backend.ola, Backend.uber]
  refine ⟨⟨?_, ?_⟩, ⟨?_, ?_⟩, ⟨?_, ?_⟩⟩ <;>
    exact calculate_fare_lt _ _ _ _ _ _ _ hd h1 (by norm_num) (by norm_num)

/-- Witness for `provider_order_strict` at distance 1000 m, surge 1,
hour 12. -/
theorem provider_order_strict_witness :
    (Backend.rapido 1000 1 12).bike < (Backend.ola 1000 1 12).bike :=
  (provider_order_strict 1000 1 12 (by norm_num) (Or.inl rfl) (by norm_num)).1.1

end CarPred
